import Mathlib

/-
Verification development for the trestle-transport coordinator core.

The Python modules under src/trestle_coordinator_core are shallowly embedded:
pure functions become Lean functions, stateful session code becomes explicit
state-passing step functions, machine floats used for timestamps and signal
values become rationals, and fallible operations return Except/Option.

Python-specific semantics that matter to the claims are modelled explicitly:
  - a Python bool is a subclass of int, so isinstance(x, int | float) holds
    for booleans and True compares equal to 1 (captured by PyVal.asNumber);
  - Python truthiness used in conditions such as `if target.room_id and ...`
    or `not supports_audio` is captured by PyVal.truthy / nonempty checks;
  - dicts are insertion-ordered maps, embedded as association lists with
    in-place replacement on key reassignment (alInsert) and first-match
    lookup (alGet).
-/

namespace Trestle

/-- A runtime Python value as it occurs in signal maps and binding states:
a bool, an int/float (embedded as a rational), a string, or None. -/
inductive PyVal where
  | vb (x : Bool)
  | vnum (q : ℚ)
  | vstr (s : String)
  | vnone
  deriving DecidableEq, Repr

/-- Python truthiness of a value: `bool(x)`. -/
def PyVal.truthy : PyVal → Bool
  | .vb x => x
  | .vnum q => if q = 0 then false else true
  | .vstr s => if s = "" then false else true
  | .vnone => false

/-- Result of `isinstance(x, int | float)` followed by reading the number.
A Python bool IS an int (True == 1, False == 0), so booleans pass the
isinstance check and are read as 1 / 0; strings and None do not. -/
def PyVal.asNumber : PyVal → Option ℚ
  | .vb x => some (if x then 1 else 0)
  | .vnum q => some q
  | _ => none

/-- First-match lookup in an association list: `d.get(k)` on a dict whose
entries are in insertion order. -/
def alGet {α : Type} : List (String × α) → String → Option α
  | [], _ => none
  | (k', v) :: rest, k => if k' = k then some v else alGet rest k

/-- Dict assignment `d[k] = v`: replaces the value in place when the key is
present (keeping its position), otherwise appends the new entry at the end. -/
def alInsert {α : Type} : List (String × α) → String → α → List (String × α)
  | [], k, v => [(k, v)]
  | (k', v') :: rest, k, v =>
      if k' = k then (k, v) :: rest else (k', v') :: alInsert rest k v

/-- Dict removal `d.pop(k)`: drops the first entry with the given key. -/
def alRemove {α : Type} : List (String × α) → String → List (String × α)
  | [], _ => []
  | (k', v') :: rest, k => if k' = k then rest else (k', v') :: alRemove rest k

theorem alGet_alInsert_self {α : Type} (l : List (String × α)) (k : String) (v : α) :
    alGet (alInsert l k v) k = some v := by
  induction l with
  | nil => simp [alInsert, alGet]
  | cons hd tl ih =>
      by_cases h : hd.1 = k <;> simp [alInsert, alGet, h, ih]

theorem length_alInsert_of_alGet_none {α : Type} (l : List (String × α)) (k : String) (v : α)
    (h : alGet l k = none) : (alInsert l k v).length = l.length + 1 := by
  induction l with
  | nil => simp [alInsert]
  | cons hd tl ih =>
      by_cases hk : hd.1 = k
      · simp [alGet, hk] at h
      · simp [alGet, hk] at h
        simp [alInsert, hk, ih h]

theorem alRemove_alInsert_of_alGet_none {α : Type} (l : List (String × α)) (k : String) (v : α)
    (h : alGet l k = none) : alRemove (alInsert l k v) k = l := by
  induction l with
  | nil => simp [alInsert, alRemove]
  | cons hd tl ih =>
      by_cases hk : hd.1 = k
      · simp [alGet, hk] at h
      · simp [alGet, hk] at h
        simp [alInsert, alRemove, hk, ih h]

/-
Attention model, embedded from
src/trestle_coordinator_core/decision/attention.py.
-/

/-- How intrusive an alert should be, ordered from least to most intrusive
(the AttentionLevel enum). -/
inductive AttentionLevel where
  | passive
  | glance
  | notify
  | interrupt
  | critical
  deriving DecidableEq, Repr

/-- Position of a level in _ATTENTION_ORDER (its enum value minus one). -/
def AttentionLevel.idx : AttentionLevel → Nat
  | .passive => 0
  | .glance => 1
  | .notify => 2
  | .interrupt => 3
  | .critical => 4

/-- Inverse of AttentionLevel.idx used for list indexing into
_ATTENTION_ORDER; indexes at 4 or above yield critical, matching the min
clamp performed by the source before indexing. -/
def AttentionLevel.ofIdx : Nat → AttentionLevel
  | 0 => .passive
  | 1 => .glance
  | 2 => .notify
  | 3 => .interrupt
  | _ => .critical

/-- All inputs for computing attention level (AttentionContext). Priorities
and escalation levels are Python ints, embedded as Int. -/
structure AttentionContext where
  alert_priority : Int
  alert_domain : String
  quiet_hours : Bool
  cooldown_active : Bool
  escalation_level : Int
  device_present : Bool
  device_proximity_near : Bool
  device_supports_interruptions : Bool
  device_recently_active : Bool
  deriving DecidableEq, Repr

def LIFE_SAFETY_THRESHOLD : Int := 150

def PRIORITY_CRITICAL : Int := 150

def PRIORITY_INTERRUPT : Int := 100

def PRIORITY_NOTIFY : Int := 50

def PRIORITY_GLANCE : Int := 20

/-- Map priority to base attention level (_base_attention_from_priority). -/
def baseAttentionFromPriority (priority : Int) : AttentionLevel :=
  if PRIORITY_CRITICAL ≤ priority then .critical
  else if PRIORITY_INTERRUPT ≤ priority then .interrupt
  else if PRIORITY_NOTIFY ≤ priority then .notify
  else if PRIORITY_GLANCE ≤ priority then .glance
  else .passive

/-- Apply escalation steps to attention level (_apply_escalation): each step
raises the level by one, clamped at critical; non-positive escalation leaves
the level unchanged. -/
def applyEscalation (level : AttentionLevel) (escalation_level : Int) : AttentionLevel :=
  if escalation_level ≤ 0 then level
  else AttentionLevel.ofIdx (min (level.idx + escalation_level.toNat) 4)

/-- Increase attention level by one step, max critical (_step_up). -/
def stepUp (level : AttentionLevel) : AttentionLevel :=
  AttentionLevel.ofIdx (min (level.idx + 1) 4)

/-- Cap attention level at a maximum (_cap_at). -/
def capAt (level cap : AttentionLevel) : AttentionLevel :=
  if cap.idx < level.idx then cap else level

/-- Rule 7 of compute_attention_level, inline in the source: during quiet
hours a level above notify is capped at notify. -/
def quietGate (quiet_hours : Bool) (level : AttentionLevel) : AttentionLevel :=
  if quiet_hours ∧ AttentionLevel.notify.idx < level.idx then .notify else level

/-- Compute the appropriate attention level for an alert
(compute_attention_level), rules applied in source order. -/
def computeAttentionLevel (context : AttentionContext) : AttentionLevel :=
  if LIFE_SAFETY_THRESHOLD ≤ context.alert_priority then .critical
  else if context.cooldown_active ∧ context.escalation_level = 0 then .passive
  else
    let l₁ := baseAttentionFromPriority context.alert_priority
    let l₂ := applyEscalation l₁ context.escalation_level
    let l₃ := if context.device_proximity_near ∧ context.device_recently_active
              then stepUp l₂ else l₂
    let l₄ := if context.device_supports_interruptions then l₃
              else capAt l₃ .glance
    quietGate context.quiet_hours l₄

/-
Device selection, embedded from
src/trestle_coordinator_core/decision/selection.py.
Timestamps are Unix seconds embedded as rationals; the signal bag is an
insertion-ordered association list of PyVal.
-/

/-- Runtime context for a device during selection (DeviceContext). -/
structure DeviceContext where
  device_id : String
  room : Option String
  online : Bool
  last_interaction_ts : Option ℚ
  signals : List (String × PyVal)
  deriving DecidableEq, Repr

/-- Alert targeting information (AlertTarget); the frozensets are embedded
as lists with membership checks. -/
structure AlertTarget where
  room_id : Option String
  required_capabilities : List String
  excluded_devices : List String
  deriving DecidableEq, Repr

/-- Device capabilities for eligibility checking (DeviceCapabilities). -/
structure DeviceCapabilities where
  device_id : String
  capabilities : List String
  suppressed : Bool
  deriving DecidableEq, Repr

/-- Result of device selection (SelectionResult). -/
structure SelectionResult where
  device_id : Option String
  score : Int
  score_breakdown : List (String × Int)
  candidates_evaluated : Nat
  deriving DecidableEq, Repr

def HIGH_LUX_THRESHOLD : ℚ := 500

def LOW_LUX_THRESHOLD : ℚ := 50

def RECENT_INTERACTION_SECONDS : ℚ := 300

/-- Truthiness of an optional room string: `if device.room` is false for
None and for the empty string. -/
def roomTruthy : Option String → Bool
  | none => false
  | some s => if s = "" then false else true

/-- Score modifiers from device signals (_compute_signal_score). The three
bool signals use Python `is True` identity, so only a genuine bool True
counts; ambient_lux uses isinstance(lux, int | float), which a bool passes
(PyVal.asNumber). Returns (signal_score, signal_breakdown). -/
def computeSignalScore (signals : List (String × PyVal)) : Int × List (String × Int) :=
  let ra : Int × List (String × Int) :=
    if alGet signals "recently_active" = some (.vb true)
    then (40, [("recently_active", 40)]) else (0, [])
  let pa : Int × List (String × Int) :=
    if alGet signals "proximity_active" = some (.vb true)
    then (30, [("proximity_active", 30)]) else (0, [])
  let sf : Int × List (String × Int) :=
    if alGet signals "screen_facing" = some (.vb true)
    then (20, [("screen_facing", 20)]) else (0, [])
  let lux : Int × List (String × Int) :=
    match alGet signals "ambient_lux" with
    | some v =>
        match v.asNumber with
        | some q =>
            if q < LOW_LUX_THRESHOLD then (20, [("low_lux", 20)])
            else if HIGH_LUX_THRESHOLD < q then (-10, [("high_lux", -10)])
            else (0, [])
        | none => (0, [])
    | none => (0, [])
  (ra.1 + pa.1 + sf.1 + lux.1, ra.2 ++ pa.2 ++ sf.2 ++ lux.2)

/-- Selection score for a device (_compute_device_score): room component,
recent-interaction component (granted only when 0 ≤ elapsed < 300), then
signal modifiers. Breakdown entries appear in source insertion order. -/
def computeDeviceScore (device : DeviceContext) (target : AlertTarget) (current_time : ℚ) :
    Int × List (String × Int) :=
  let roomPart : Int × List (String × Int) :=
    match target.room_id with
    | none => (0, [])
    | some r =>
        if r = "" then (0, [])
        else if device.room = some r then (100, [("room_match", 100)])
        else if roomTruthy device.room then (25, [("same_room_fallback", 25)])
        else (0, [])
  let recentPart : Int × List (String × Int) :=
    match device.last_interaction_ts with
    | none => (0, [])
    | some ts =>
        let elapsed := current_time - ts
        if 0 ≤ elapsed ∧ elapsed < RECENT_INTERACTION_SECONDS
        then (50, [("recent_interaction", 50)]) else (0, [])
  let sigPart := computeSignalScore device.signals
  (roomPart.1 + recentPart.1 + sigPart.1, roomPart.2 ++ recentPart.2 ++ sigPart.2)

/-- Deterministic tie-break key (_tie_break_key): (elapsed since last
interaction, device_id), with elapsed = +infinity (the top of WithTop ℚ)
when no interaction is recorded. -/
def tieBreakKey (device : DeviceContext) (current_time : ℚ) : WithTop ℚ × String :=
  (match device.last_interaction_ts with
   | some ts => ((current_time - ts : ℚ) : WithTop ℚ)
   | none => ⊤,
   device.device_id)

/-- Full lexicographic sort key used by select_device: (-score, tie-break
key) ascending. -/
def SKey : Type := Int ×ₗ ((WithTop ℚ) ×ₗ String)

instance : LinearOrder SKey := inferInstanceAs (LinearOrder (Int ×ₗ ((WithTop ℚ) ×ₗ String)))

instance : DecidableEq SKey := inferInstanceAs (DecidableEq (Int × (WithTop ℚ × String)))

def sortKey (target : AlertTarget) (current_time : ℚ) (device : DeviceContext) : SKey :=
  toLex (-(computeDeviceScore device target current_time).1,
         toLex (tieBreakKey device current_time))

/-- The device_id component carried by a sort key. -/
def SKey.keyId (k : SKey) : String := (ofLex (ofLex k).2).2

/-- Eligibility filter of select_device, all gates required: online, not
excluded, capabilities known, not suppressed, and (when the required set is
nonempty) required_capabilities ⊆ declared capabilities. -/
def isEligible (target : AlertTarget) (capabilities : List (String × DeviceCapabilities))
    (device : DeviceContext) : Bool :=
  if device.online = false then false
  else if device.device_id ∈ target.excluded_devices then false
  else
    match alGet capabilities device.device_id with
    | none => false
    | some caps =>
        if caps.suppressed then false
        else if target.required_capabilities ≠ [] ∧
                ¬ (∀ c ∈ target.required_capabilities, c ∈ caps.capabilities) then false
        else true

/-- One step of the stable selection: keep the current best unless the
challenger's key is strictly smaller. A left fold of this over the eligible
list returns the leftmost element with minimal key, which is exactly
`scored[0]` after the source's stable sort by the same key. -/
def pickBy {α : Type} {β : Type} [LinearOrder β] (k : α → β) (a b : α) : α :=
  if k b < k a then b else a

/-- Select the best single target device for an alert (select_device):
filter to eligible devices, score them, and take the head of the list
stably sorted by (-score, tie-break key). -/
def selectDevice (target : AlertTarget) (devices : List DeviceContext)
    (capabilities : List (String × DeviceCapabilities)) (current_time : ℚ) : SelectionResult :=
  let eligible := devices.filter (isEligible target capabilities)
  match eligible with
  | [] => ⟨none, 0, [], 0⟩
  | d :: rest =>
      let winner := rest.foldl (pickBy (sortKey target current_time)) d
      let sb := computeDeviceScore winner target current_time
      ⟨some winner.device_id, sb.1, sb.2, (d :: rest).length⟩

/-
Attention to realization mapping, embedded from
src/trestle_coordinator_core/decision/realization_intent.py.
-/

/-- Output modality for alert delivery (OutputChannel). -/
inductive OutputChannel where
  | visual
  | audio
  | haptic
  | ambient
  deriving DecidableEq, Repr

/-- Intensity literal low / medium / high. -/
inductive Intensity where
  | low
  | medium
  | high
  deriving DecidableEq, Repr

/-- Abstract output intent for a single channel (RealizationIntent). -/
structure RealizationIntent where
  channel : OutputChannel
  intensity : Intensity
  persistent : Bool
  interruptive : Bool
  deriving DecidableEq, Repr

/-- Static mapping from attention level to baseline intents
(REALIZATION_PROFILES); every level is a key of the source dict, so the
`.get(attention, [])` default never fires. -/
def realizationProfiles : AttentionLevel → List RealizationIntent
  | .passive => [⟨.ambient, .low, false, false⟩]
  | .glance => [⟨.visual, .low, false, false⟩]
  | .notify => [⟨.visual, .medium, true, false⟩, ⟨.audio, .low, false, false⟩]
  | .interrupt =>
      [⟨.visual, .high, false, true⟩, ⟨.audio, .medium, false, true⟩,
       ⟨.haptic, .medium, false, true⟩]
  | .critical =>
      [⟨.visual, .high, true, true⟩, ⟨.audio, .high, true, true⟩,
       ⟨.haptic, .high, true, true⟩]

/-- Map attention level to filtered realization intents (realize_attention).
The supports_* flags are read with `signals.get(key, default)` and then used
in a bare `not supports_x` test, i.e. by Python truthiness of whatever value
is stored; absence defaults to True for audio and False for haptic/ambient. -/
def realizeAttention (attention : AttentionLevel) (device : DeviceContext) :
    List RealizationIntent :=
  let signals := device.signals
  let supports_audio :=
    match alGet signals "supports_audio" with
    | some v => v.truthy
    | none => true
  let supports_haptic :=
    match alGet signals "supports_haptic" with
    | some v => v.truthy
    | none => false
  let supports_ambient :=
    match alGet signals "supports_ambient" with
    | some v => v.truthy
    | none => false
  (realizationProfiles attention).filter fun intent =>
    if intent.channel = .audio ∧ supports_audio = false then false
    else if intent.channel = .haptic ∧ supports_haptic = false then false
    else if intent.channel = .ambient ∧ supports_ambient = false then false
    else true

/-
Weather humidity normalization, embedded from
src/trestle_coordinator_core/domains/weather.py. from_ha_weather_entity
passes attributes.get("humidity") straight into _normalize_humidity, whose
output becomes the weather_humidity field.
-/

/-- Normalize humidity to the 0.0-1.0 range if needed (_normalize_humidity):
None passes through, values strictly greater than 1.0 are divided by 100,
anything else is returned unchanged. -/
def normalizeHumidity : Option ℚ → Option ℚ
  | none => none
  | some humidity => if 1 < humidity then some (humidity / 100) else some humidity

/-
Policy engine, embedded from src/trestle_coordinator_core/policy_engine.py
and the rule object model of src/trestle_coordinator_core/profile.py.
Times of day are minutes since midnight; the wall clock sampled by
datetime.now() in IntentCandidate's timestamp default is threaded as an
explicit `now` parameter.
-/

/-- Intent importance levels in order (the Importance enum). -/
inductive Importance where
  | low
  | medium
  | high
  | critical
  deriving DecidableEq, Repr

/-- Position in the enum's comparison order list. -/
def Importance.idx : Importance → Nat
  | .low => 0
  | .medium => 1
  | .high => 2
  | .critical => 3

/-- The enum member's string value. -/
def Importance.toStr : Importance → String
  | .low => "low"
  | .medium => "medium"
  | .high => "high"
  | .critical => "critical"

/-- Lower-case a string character by character; the same map over the
string's characters that str.lower() performs on the ASCII importance
names. -/
def strLower (s : String) : String := ⟨s.data.map Char.toLower⟩

/-- Importance.from_string: `Importance(s.lower())`, which raises ValueError
(here: none) on any string that is not a lowercased member value. -/
def importanceFromString (s : String) : Option Importance :=
  match strLower s with
  | "low" => some .low
  | "medium" => some .medium
  | "high" => some .high
  | "critical" => some .critical
  | _ => none

/-- Current state of a domain (DomainState). -/
structure DomainState where
  domain : String
  state : Option String
  event : Option String
  scope_id : String
  metadata : List (String × PyVal)
  deriving DecidableEq, Repr

/-- A condition in a policy rule's when clause (PolicyCondition). -/
structure PolicyCondition where
  domain : String
  state : Option String
  event : Option String
  deriving DecidableEq, Repr

/-- Classification output from a policy rule (PolicyClassification); its
raw profile string for the rank is kept as a string, as in the source. -/
structure PolicyClassification where
  importance : String
  interrupt : Bool
  bypass_quiet_hours : Bool
  deriving DecidableEq, Repr

/-- Side effects from a policy rule (PolicyEffects). -/
structure PolicyEffects where
  suppress_below_importance : Option String
  deriving DecidableEq, Repr

/-- A single policy rule (PolicyRule); conditions and suppress_if are
insertion-ordered dicts embedded as association lists. -/
structure PolicyRule where
  rule_id : String
  whenCond : PolicyCondition
  classify : Option PolicyClassification
  effects : Option PolicyEffects
  conditions : List (String × String)
  suppress_if : List (String × String)
  deriving DecidableEq, Repr

/-- Quiet hours window (QuietHours); `end` is a Lean keyword, so the field
is endTime. -/
structure QuietHours where
  start : Nat
  endTime : Nat
  deriving DecidableEq, Repr

/-- QuietHours.is_active: same-day window start ≤ now ≤ end, overnight
window (start > end) now ≥ start or now ≤ end. -/
def QuietHours.isActive (q : QuietHours) (current : Nat) : Bool :=
  if q.start ≤ q.endTime then
    if q.start ≤ current ∧ current ≤ q.endTime then true else false
  else
    if q.start ≤ current ∨ current ≤ q.endTime then true else false

/-- Loaded policy with quiet hours and rules (LoadedPolicy). -/
structure LoadedPolicy where
  quiet_hours : Option QuietHours
  rules : List PolicyRule
  deriving DecidableEq, Repr

/-- A fully loaded profile (LoadedProfile); the domains map is never
consulted by the policy evaluation functions and is omitted here. -/
structure LoadedProfile where
  profile_id : String
  profile_version : String
  profile_name : String
  policy : LoadedPolicy
  deriving DecidableEq, Repr

/-- A classified intent candidate (IntentCandidate). The timestamp field's
dataclass default is datetime.now(), sampled at construction; it is the
`now` argument threaded through evaluation below. -/
structure IntentCandidate where
  domain : String
  rule_id : String
  importance : Importance
  interrupt : Bool
  bypass_quiet_hours : Bool
  suppressed : Bool
  suppression_reason : Option String
  scope_id : String
  timestamp : ℚ
  deriving DecidableEq, Repr

/-- Context for policy evaluation (EvaluationContext); domain_states is the
insertion-ordered dict of all current domain states. -/
structure EvaluationContext where
  domain_states : List (String × DomainState)
  current_time : Nat
  active_effects : List PolicyEffects
  deriving DecidableEq, Repr

/-- Check if a rule's when clause matches the domain state
(_matches_condition). -/
def matchesCondition (rule : PolicyRule) (state : DomainState) : Bool :=
  if rule.whenCond.domain ≠ state.domain then false
  else if rule.whenCond.state ≠ none ∧ rule.whenCond.state ≠ state.state then false
  else if rule.whenCond.event = none ∨ rule.whenCond.event = state.event then true
  else false

/-- Check additional conditions against other domains (_check_conditions). -/
def checkConditions (rule : PolicyRule) (context : EvaluationContext) : Bool :=
  rule.conditions.all fun entry =>
    match alGet context.domain_states entry.1 with
    | none => false
    | some domain_state => if domain_state.state = some entry.2 then true else false

/-- Check suppress_if conditions, returning the suppression reason
"{domain}={value}" for the first match (_check_suppress_if). -/
def checkSuppressIf (entries : List (String × String)) (context : EvaluationContext) :
    Option String :=
  match entries with
  | [] => none
  | (domain_name, suppress_value) :: rest =>
      match alGet context.domain_states domain_name with
      | some domain_state =>
          if domain_state.state = some suppress_value
          then some (domain_name ++ "=" ++ suppress_value)
          else checkSuppressIf rest context
      | none => checkSuppressIf rest context

/-- Check if quiet hours should suppress (_check_quiet_hours). -/
def checkQuietHours (quiet_hours : Option QuietHours) (current_time : Nat) (bypass : Bool) :
    Bool :=
  match quiet_hours with
  | none => false
  | some q => if bypass then false else q.isActive current_time

/-- Check if active effects suppress this importance level
(_check_importance_suppression). A falsy suppress_below_importance (None or
the empty string) is skipped; otherwise Importance.from_string may raise
(Except.error). Returns the reason "importance below {threshold}" when
suppressed. -/
def checkImportanceSuppression (importance : Importance) :
    List PolicyEffects → Except Unit (Option String)
  | [] => .ok none
  | effect :: rest =>
      match effect.suppress_below_importance with
      | none => checkImportanceSuppression importance rest
      | some s =>
          if s = "" then checkImportanceSuppression importance rest
          else
            match importanceFromString s with
            | none => .error ()
            | some threshold =>
                if importance.idx < threshold.idx
                then .ok (some ("importance below " ++ threshold.toStr))
                else checkImportanceSuppression importance rest

/-- Evaluate a single rule against domain state (evaluate_rule). Returns
ok none when the rule does not match or only applies effects, ok (some c)
for an emitted candidate, and error for an importance-string ValueError.
The `now` argument is the wall clock stamped into the candidate. -/
def evaluateRule (rule : PolicyRule) (state : DomainState) (context : EvaluationContext)
    (quiet_hours : Option QuietHours) (now : ℚ) : Except Unit (Option IntentCandidate) :=
  if matchesCondition rule state = false then .ok none
  else if checkConditions rule context = false then .ok none
  else
    match rule.classify with
    | none => .ok none
    | some classification =>
        match importanceFromString classification.importance with
        | none => .error ()
        | some importance =>
            match checkSuppressIf rule.suppress_if context with
            | some suppress_reason =>
                .ok (some ⟨state.domain, rule.rule_id, importance,
                      classification.interrupt, classification.bypass_quiet_hours,
                      true, some suppress_reason, state.scope_id, now⟩)
            | none =>
                if checkQuietHours quiet_hours context.current_time
                    classification.bypass_quiet_hours then
                  .ok (some ⟨state.domain, rule.rule_id, importance,
                        false, classification.bypass_quiet_hours,
                        true, some "quiet_hours", state.scope_id, now⟩)
                else
                  match checkImportanceSuppression importance context.active_effects with
                  | .error e => .error e
                  | .ok (some reason) =>
                      .ok (some ⟨state.domain, rule.rule_id, importance,
                            false, classification.bypass_quiet_hours,
                            true, some reason, state.scope_id, now⟩)
                  | .ok none =>
                      .ok (some ⟨state.domain, rule.rule_id, importance,
                            classification.interrupt, classification.bypass_quiet_hours,
                            false, none, state.scope_id, now⟩)

/-- Collect all active effects from the current domain states
(collect_active_effects): for each rule carrying effects, append them once
if its when clause matches any current state. -/
def collectActiveEffects (policy : LoadedPolicy) (domain_states : List (String × DomainState)) :
    List PolicyEffects :=
  policy.rules.foldl
    (fun acc rule =>
      match rule.effects with
      | none => acc
      | some eff =>
          if domain_states.any (fun p => matchesCondition rule p.2) then acc ++ [eff] else acc)
    []

/-- Evaluate a list of rules in order against the updated state, collecting
the non-None candidates; an importance ValueError aborts the whole
evaluation, as an uncaught exception does in the source loop. -/
def evalRulesList (rules : List PolicyRule) (updated : DomainState)
    (context : EvaluationContext) (quiet_hours : Option QuietHours) (now : ℚ) :
    Except Unit (List IntentCandidate) :=
  match rules with
  | [] => .ok []
  | rule :: rest =>
      match evaluateRule rule updated context quiet_hours now with
      | .error e => .error e
      | .ok c =>
          match evalRulesList rest updated context quiet_hours now with
          | .error e => .error e
          | .ok others =>
              .ok (match c with
                   | some candidate => candidate :: others
                   | none => others)

/-- Evaluate policy rules when a domain state changes
(evaluate_domain_update). `current_time` is the time-of-day input; `now` is
the ambient wall clock consumed by each candidate's timestamp default. -/
def evaluateDomainUpdate (profile : LoadedProfile) (updated_state : DomainState)
    (all_states : List (String × DomainState)) (current_time : Nat) (now : ℚ) :
    Except Unit (List IntentCandidate) :=
  let policy := profile.policy
  let context : EvaluationContext :=
    ⟨all_states, current_time, collectActiveEffects policy all_states⟩
  evalRulesList policy.rules updated_state context policy.quiet_hours now

/-- Erase the wall-clock timestamp of a candidate (set it to 0), leaving
every other field intact. -/
def eraseTs (c : IntentCandidate) : IntentCandidate := { c with timestamp := 0 }

/-- Erase the timestamps of an evaluation outcome. -/
def eraseOutcome (r : Except Unit (List IntentCandidate)) : Except Unit (List IntentCandidate) :=
  r.map (List.map eraseTs)

/-
Session batching, delta sequencing and keepalive, embedded from
src/trestle_coordinator_core/session.py. The mutable TrestleSession fields
touched by these paths become an explicit state record; each method becomes
a step function from state to state. The transport write inside the final
try block is the only effect, so its success is an input (sendOk); a failed
write raises TrestleClientError, which the source catches and converts to a
False return after the state mutations have already happened. Client msg_id
values (uuid4) and the wall clock (time.time) are inputs.
-/

/-- Outstanding delta acknowledgement record (_PendingDeltaAck). -/
structure PendingDeltaAck where
  seq : Nat
  sent_at : ℚ
  deriving DecidableEq, Repr

def MAX_PENDING_DELTA_ACKS : Nat := 32

/-- A frame handed to the transport by the batching paths. -/
inductive Frame where
  | snapshot (layout_id : String) (states : List (String × PyVal))
  | delta (layout_id : String) (seq : Nat) (msg_id : String)
      (changes : List (String × PyVal))
  deriving DecidableEq, Repr

/-- The TrestleSession fields read or written by the batching, delta and
ack paths. ws models `self._ws is not None`; has_state_request_callback
models `self._state_request_callback is not None`; pending_batch and
pending_delta_acks are the insertion-ordered dicts. -/
structure SessionSt where
  connection_state : String
  ws : Bool
  layout_applied : Bool
  current_layout_id : Option String
  snapshot_sent : Bool
  pending_batch : List (String × PyVal)
  delta_seq : Nat
  pending_delta_acks : List (String × PendingDeltaAck)
  last_snapshot_states : List (String × PyVal)
  has_state_request_callback : Bool
  deriving DecidableEq, Repr

/-- is_connected: the session is in the authenticated state. -/
def isConnected (st : SessionSt) : Bool :=
  if st.connection_state = "authenticated" then true else false

/-- Truthiness of `self._current_layout_id` (None and "" are falsy). -/
def layoutTruthy : Option String → Bool
  | none => false
  | some s => if s = "" then false else true

/-- _send_snapshot: refuse when the layout id is falsy or the socket is
gone; otherwise remember the states, attempt the write, and flip
snapshot_sent only when the write succeeds. Returns (state, success,
frame handed to the transport on success). -/
def sendSnapshot (st : SessionSt) (states : List (String × PyVal)) (sendOk : Bool) :
    SessionSt × Bool × Option Frame :=
  if layoutTruthy st.current_layout_id = false ∨ st.ws = false then (st, false, none)
  else
    let st₁ := { st with last_snapshot_states := states }
    if sendOk then
      ({ st₁ with snapshot_sent := true }, true,
       some (.snapshot (st.current_layout_id.getD "") states))
    else (st₁, false, none)

/-- _send_delta: refuse when the layout id is falsy, the socket is gone, or
the pending-ack window already holds MAX_PENDING_DELTA_ACKS entries; the
seq increment and the pending-ack insertion happen before the write and are
not rolled back when the write fails. -/
def sendDelta (st : SessionSt) (changes : List (String × PyVal)) (msgId : String)
    (now : ℚ) (sendOk : Bool) : SessionSt × Bool × Option Frame :=
  if layoutTruthy st.current_layout_id = false ∨ st.ws = false then (st, false, none)
  else if MAX_PENDING_DELTA_ACKS ≤ st.pending_delta_acks.length then (st, false, none)
  else
    let seq := st.delta_seq + 1
    let st₁ := { st with
      delta_seq := seq,
      pending_delta_acks := alInsert st.pending_delta_acks msgId ⟨seq, now⟩ }
    if sendOk then
      (st₁, true, some (.delta (st.current_layout_id.getD "") seq msgId changes))
    else (st₁, false, none)

/-- _get_all_states: empty without a state-request callback, else the
entries of the pending batch. -/
def getAllStates (st : SessionSt) : List (String × PyVal) :=
  if st.has_state_request_callback = false then [] else st.pending_batch

/-- _flush_pending_batch: skip when the batch is empty or the session is
not connected with a layout applied; otherwise capture the batch entries as
changes, clear the batch, and send a delta (after a snapshot has been sent)
or a snapshot of _get_all_states() (before). Note the clear happens before
either send, and _get_all_states reads the already-cleared batch. The
coroutine returns None; the second component is the frame handed to the
transport, if any. -/
def flushPendingBatch (st : SessionSt) (msgId : String) (now : ℚ) (sendOk : Bool) :
    SessionSt × Option Frame :=
  if st.pending_batch = [] then (st, none)
  else if ¬ (isConnected st = true ∧ st.layout_applied = true) then (st, none)
  else
    let changes := st.pending_batch
    let st₁ := { st with pending_batch := [] }
    if st₁.snapshot_sent then
      let r := sendDelta st₁ changes msgId now sendOk
      (r.1, r.2.2)
    else
      let r := sendSnapshot st₁ (getAllStates st₁) sendOk
      (r.1, r.2.2)

/-- send_immediate_update: refuse unless authenticated with a layout
applied and a non-None layout id; then send a single-change delta (after a
snapshot) or a snapshot of _get_all_states() (before). -/
def sendImmediateUpdate (st : SessionSt) (binding_id : String) (value : PyVal)
    (msgId : String) (now : ℚ) (sendOk : Bool) : SessionSt × Bool :=
  if isConnected st = false ∨ st.layout_applied = false then (st, false)
  else if st.current_layout_id = none then (st, false)
  else
    let changes := [(binding_id, value)]
    if st.snapshot_sent then
      let r := sendDelta st changes msgId now sendOk
      (r.1, r.2.1)
    else
      let r := sendSnapshot st (getAllStates st) sendOk
      (r.1, r.2.1)

/-- _handle_delta_ack: a truthy msg_id present in the pending map pops its
entry; anything else is ignored. -/
def handleDeltaAck (st : SessionSt) (msgId : String) : SessionSt :=
  if msgId ≠ "" ∧ (alGet st.pending_delta_acks msgId).isSome then
    { st with pending_delta_acks := alRemove st.pending_delta_acks msgId }
  else st

/-- The TrestleSession fields used by _keepalive_loop and _send_ping.
ws models `self._ws is not None`. -/
structure KeepaliveSt where
  ws : Bool
  ping_interval : ℚ
  ping_timeout : ℚ
  ping_id : Nat
  pending_pings : List (Nat × ℚ)
  last_pong_time : Option ℚ
  missed_pong_windows : Nat
  deriving DecidableEq, Repr

/-- _send_ping: increment the monotonic ping id and record the send time
before attempting the write (a failed write changes nothing further). -/
def sendPing (st : KeepaliveSt) (now : ℚ) : KeepaliveSt :=
  if st.ws = false then st
  else
    { st with
      ping_id := st.ping_id + 1,
      pending_pings := st.pending_pings ++ [(st.ping_id + 1, now)] }

/-- One iteration of the _keepalive_loop body after the sleep: send a ping,
then check for missed pongs. The missed-window counter is examined only
when last_pong_time is not None; when (now - last pong) exceeds
ping_interval + ping_timeout the counter is incremented, and on reaching 3
the socket is closed and the loop breaks (second component true). -/
def keepaliveStep (st : KeepaliveSt) (now : ℚ) : KeepaliveSt × Bool :=
  let st₁ := sendPing st now
  match st₁.last_pong_time with
  | none => (st₁, false)
  | some t =>
      if st₁.ping_interval + st₁.ping_timeout < now - t then
        let st₂ := { st₁ with missed_pong_windows := st₁.missed_pong_windows + 1 }
        if 3 ≤ st₂.missed_pong_windows then ({ st₂ with ws := false }, true)
        else (st₂, false)
      else (st₁, false)

/-- _handle_pong: a truthy ping id present in the pending-pings map pops
its entry, records the pong time, and resets the missed-window counter. -/
def handlePong (st : KeepaliveSt) (pingId : Nat) (now : ℚ) : KeepaliveSt :=
  if pingId ≠ 0 ∧ (st.pending_pings.lookup pingId).isSome then
    { st with
      pending_pings := st.pending_pings.filter (fun p => p.1 ≠ pingId),
      last_pong_time := some now,
      missed_pong_windows := 0 }
  else st

/-
Helper lemmas shared by the claim theorems.
-/

theorem alGet_append {α : Type} (l₁ l₂ : List (String × α)) (k : String) :
    alGet (l₁ ++ l₂) k = (alGet l₁ k).or (alGet l₂ k) := by
  induction l₁ with
  | nil => simp [alGet]
  | cons hd tl ih =>
      by_cases h : hd.1 = k <;> simp [alGet, h, ih]

theorem sendPing_fields (st : KeepaliveSt) (now : ℚ) :
    (sendPing st now).last_pong_time = st.last_pong_time ∧
    (sendPing st now).missed_pong_windows = st.missed_pong_windows ∧
    (sendPing st now).ping_interval = st.ping_interval ∧
    (sendPing st now).ping_timeout = st.ping_timeout := by
  unfold sendPing
  split <;> simp

/-
C4. For every AttentionContext with quiet_hours = true and
alert_priority < 150, compute_attention_level returns a level at most
notify.
-/

/-- C4: with quiet hours active and alert_priority below the life-safety
threshold of 150, compute_attention_level never exceeds notify, whatever
the escalation level, proximity/recently-active step-up, or other fields:
rule 1 is skipped, rule 2 can only produce passive, and rule 7 caps
anything above notify back down to notify. -/
theorem quietGate_le_notify (level : AttentionLevel) :
    (quietGate true level).idx ≤ AttentionLevel.notify.idx := by
  cases level <;> decide

theorem quiet_hours_caps_attention_at_notify (context : AttentionContext)
    (hq : context.quiet_hours = true) (hp : context.alert_priority < 150) :
    (computeAttentionLevel context).idx ≤ AttentionLevel.notify.idx := by
  have h1 : ¬ (LIFE_SAFETY_THRESHOLD ≤ context.alert_priority) := by
    unfold LIFE_SAFETY_THRESHOLD
    omega
  unfold computeAttentionLevel
  rw [if_neg h1]
  split
  · decide
  · rw [hq]
    exact quietGate_le_notify _

/-- C4 witness: a concrete quiet-hours context with priority 100,
escalation 3 and a nearby recently-active device still lands at notify or
below. -/
theorem quiet_hours_caps_attention_at_notify_witness :
    (computeAttentionLevel ⟨100, "doorbell", true, false, 3, true, true, true, true⟩).idx ≤
      AttentionLevel.notify.idx :=
  quiet_hours_caps_attention_at_notify ⟨100, "doorbell", true, false, 3, true, true, true, true⟩
    rfl (by decide)

/-
C8. Humidity normalization. The claim that the output always lies in [0,1]
fails: an input greater than 100 (e.g. 150, from a malformed observation)
is divided by 100 but still exceeds 1, and a negative input passes through
unchanged. What holds is the division rule plus the [0,1] bound for inputs
in the percentage range [0,100].
-/

/-- C8 counterexample: the humidity input 150 is divided by 100 like any
value above 1.0, yet the resulting weather_humidity output 150/100 is
strictly greater than 1, so the output does not always lie in [0,1]. -/
theorem normalizeHumidity_output_can_exceed_one :
    normalizeHumidity (some 150) = some (150 / 100) ∧ (1 : ℚ) < 150 / 100 := by
  constructor
  · rfl
  · norm_num

/-- C8 amended: absent humidity stays absent, every input strictly greater
than 1.0 is treated as a 0-100 percentage and divided by 100, and for
inputs within the percentage range [0,100] the output lies in [0,1]
(out-of-range inputs can produce outputs outside [0,1]). -/
theorem normalizeHumidity_amended :
    normalizeHumidity none = none ∧
    (∀ h : ℚ, 1 < h → normalizeHumidity (some h) = some (h / 100)) ∧
    (∀ h : ℚ, 0 ≤ h → h ≤ 100 →
      ∃ r, normalizeHumidity (some h) = some r ∧ 0 ≤ r ∧ r ≤ 1) := by
  refine ⟨rfl, ?_, ?_⟩
  · intro h hgt
    simp only [normalizeHumidity]
    rw [if_pos hgt]
  · intro h h0 h100
    by_cases hgt : 1 < h
    · refine ⟨h / 100, ?_, ?_, ?_⟩
      · simp only [normalizeHumidity]
        rw [if_pos hgt]
      · positivity
      · linarith
    · refine ⟨h, ?_, h0, ?_⟩
      · simp only [normalizeHumidity]
        rw [if_neg hgt]
      · linarith [not_lt.mp hgt]

/-- C8 witness: applying the amended theorem at the concrete inputs 50 and
1/2. -/
theorem normalizeHumidity_amended_witness :
    normalizeHumidity (some 50) = some (50 / 100) ∧
    ∃ r, normalizeHumidity (some (1 / 2)) = some r ∧ 0 ≤ r ∧ r ≤ 1 :=
  ⟨normalizeHumidity_amended.2.1 50 (by norm_num),
   normalizeHumidity_amended.2.2 (1 / 2) (by norm_num) (by norm_num)⟩

/-
C6. Wrong-typed signal values are NOT always treated as absent. Two
deviations, evaluated here on the embedded code:
  - _compute_signal_score reads ambient_lux through
    isinstance(lux, int | float); a Python bool passes that check
    (bool is an int subtype) and True == 1 < 50 earns the +20 low-lux
    boost, whereas an absent key contributes nothing;
  - realize_attention tests the supports_* signals by bare truthiness, so
    a wrong-typed falsy value (the int 0 here) under supports_audio drops
    the audio channel, whereas an absent key keeps it (default True).
-/

/-- C6: the boolean True stored under ambient_lux is scored as the number 1
(+20 low-lux boost) instead of being ignored like an absent key, and the
wrong-typed value 0 under supports_audio makes realize_attention drop the
audio intent that an absent key would keep. -/
theorem wrong_typed_signals_are_coerced :
    computeSignalScore [("ambient_lux", .vb true)] = (20, [("low_lux", 20)]) ∧
    computeSignalScore [] = (0, []) ∧
    realizeAttention .notify ⟨"p1", none, true, none, [("supports_audio", .vnum 0)]⟩ =
      [⟨.visual, .medium, true, false⟩] ∧
    realizeAttention .notify ⟨"p1", none, true, none, []⟩ =
      [⟨.visual, .medium, true, false⟩, ⟨.audio, .low, false, false⟩] := by
  refine ⟨?_, ?_, ?_, ?_⟩ <;> rfl

/-
C2. Backpressure with a full 32-entry ack window. send_immediate_update
does return failure and leaves the session state untouched, but a batch
flush clears the pending batch BEFORE calling _send_delta; when the window
is full the delta is refused and the captured changes are dropped, so the
held binding updates are lost rather than retained (and the flush coroutine
returns None rather than a failure). Evaluated on a concrete full-window
session state below.
-/

/-- A session state whose pending-delta-ack map holds exactly 32 entries,
with one held binding update in the pending batch. -/
def ackWindowFullState : SessionSt :=
  ⟨"authenticated", true, true, some "sha256:abc", true,
   [("b1", .vstr "on")], 5,
   (List.range 32).map (fun i => (toString i, PendingDeltaAck.mk (i + 1) 0)),
   [], true⟩

/-- C2: with the 32-entry ack window full, a batch flush hands no frame to
the transport (the delta is refused) yet leaves the pending batch empty,
losing the held update, while send_immediate_update returns failure with
the state unchanged. -/
theorem full_ack_window_flush_drops_batch :
    ackWindowFullState.pending_delta_acks.length = 32 ∧
    (flushPendingBatch ackWindowFullState "m33" 100 true).2 = none ∧
    (flushPendingBatch ackWindowFullState "m33" 100 true).1.pending_batch = [] ∧
    (sendImmediateUpdate ackWindowFullState "b2" (.vstr "off") "m33" 100 true).2 = false ∧
    (sendImmediateUpdate ackWindowFullState "b2" (.vstr "off") "m33" 100 true).1 =
      ackWindowFullState := by
  refine ⟨?_, ?_, ?_, ?_, ?_⟩ <;> rfl

/-
C3. First flush after a layout is applied. The flush does emit a snapshot
carrying the applied layout_id, but _flush_pending_batch clears
_pending_batch before calling _get_all_states(), and _get_all_states reads
only the pending batch, so the snapshot's states list is empty rather than
all currently-held binding states. Evaluated on a concrete pre-snapshot
session state below.
-/

/-- A session state with a layout applied, no snapshot sent yet, and two
held binding states. -/
def preSnapshotState : SessionSt :=
  ⟨"authenticated", true, true, some "sha256:abc", false,
   [("b1", .vstr "on"), ("b2", .vstr "off")], 0, [], [], true⟩

/-- C3: the first flush after a layout is applied emits a snapshot with the
applied layout_id but with an empty states list, even though two binding
states are held; only the snapshot-sent flag flips so later flushes emit
deltas. -/
theorem first_flush_snapshot_has_empty_states :
    (flushPendingBatch preSnapshotState "m1" 5 true).2 =
      some (.snapshot "sha256:abc" []) ∧
    (flushPendingBatch preSnapshotState "m1" 5 true).1.snapshot_sent = true ∧
    preSnapshotState.pending_batch ≠ [] := by
  refine ⟨rfl, rfl, by decide⟩

/-
C7. Keepalive missed-pong accounting. The check runs only when
last_pong_time is not None, so a session that authenticates and never
receives a single pong never increments the counter and is never
force-closed by the keepalive loop; the claim's parenthetical fails.
-/

/-- C7 counterexample: a keepalive state that has never observed a pong
(last_pong_time None), with interval 30 and timeout 10, stepped at time
100000: the missed-window counter stays 0 and the socket is not closed,
although no pong has been observed for far longer than
ping_interval + ping_timeout. -/
theorem keepalive_never_ponged_never_closes :
    (keepaliveStep ⟨true, 30, 10, 0, [], none, 0⟩ 100000).1.missed_pong_windows = 0 ∧
    (keepaliveStep ⟨true, 30, 10, 0, [], none, 0⟩ 100000).2 = false :=
  ⟨rfl, rfl⟩

/-- C7 amended: in each keepalive iteration, whenever a pong HAS been
observed at least once and more than ping_interval + ping_timeout seconds
have elapsed since it, the missed-window counter is incremented, and the
socket is force-closed exactly when the incremented counter reaches 3;
when no pong has ever been observed, the counter is never incremented and
the loop never force-closes the socket. -/
theorem keepalive_missed_window_amended (st : KeepaliveSt) (now : ℚ) :
    (∀ t : ℚ, st.last_pong_time = some t →
      st.ping_interval + st.ping_timeout < now - t →
      ((keepaliveStep st now).1.missed_pong_windows = st.missed_pong_windows + 1 ∧
       ((keepaliveStep st now).2 = true ↔ 3 ≤ st.missed_pong_windows + 1))) ∧
    (st.last_pong_time = none →
      ((keepaliveStep st now).1.missed_pong_windows = st.missed_pong_windows ∧
       (keepaliveStep st now).2 = false)) := by
  obtain ⟨hlp, hmw, hpi, hpt⟩ := sendPing_fields st now
  constructor
  · intro t ht hgt
    unfold keepaliveStep
    simp only [hlp, hpi, hpt, hmw, ht]
    rw [if_pos hgt]
    split
    · next h => exact ⟨rfl, by simp [h]⟩
    · next h => exact ⟨rfl, by simp [h]⟩
  · intro ht
    unfold keepaliveStep
    simp only [hlp, ht]
    exact ⟨hmw, trivial⟩

/-- C7 witness: a session whose last pong is 45 seconds old (interval 30,
timeout 10) has its missed-window counter incremented from 0 to 1 by the
next keepalive iteration. -/
theorem keepalive_missed_window_amended_witness :
    (keepaliveStep ⟨true, 30, 10, 0, [], some 5, 0⟩ 50).1.missed_pong_windows = 0 + 1 :=
  (((keepalive_missed_window_amended ⟨true, 30, 10, 0, [], some 5, 0⟩ 50).1) 5 rfl
    (by norm_num)).1

/-
C9. A delta whose transport write fails still consumes state: the seq
increment and the pending-ack insertion happen before the write, and there
is no rollback in the error handler; the entry occupies one window slot
until a matching delta_ack removes it.
-/

/-- C9: when the transport write of a delta fails (sendOk = false) from a
sendable state (truthy layout id, live socket, window not full, fresh
msg_id), the operation returns failure, yet the delta seq counter has been
incremented and the msg_id entry sits in the pending-acks map, growing the
window by one slot; a matching delta_ack restores exactly the original
map. -/
theorem failed_delta_send_keeps_state (st : SessionSt) (changes : List (String × PyVal))
    (msgId : String) (now : ℚ)
    (hlid : layoutTruthy st.current_layout_id = true)
    (hws : st.ws = true)
    (hlen : st.pending_delta_acks.length < MAX_PENDING_DELTA_ACKS)
    (hfresh : alGet st.pending_delta_acks msgId = none)
    (hmsg : msgId ≠ "") :
    (sendDelta st changes msgId now false).2.1 = false ∧
    (sendDelta st changes msgId now false).1.delta_seq = st.delta_seq + 1 ∧
    alGet (sendDelta st changes msgId now false).1.pending_delta_acks msgId =
      some (PendingDeltaAck.mk (st.delta_seq + 1) now) ∧
    (sendDelta st changes msgId now false).1.pending_delta_acks.length =
      st.pending_delta_acks.length + 1 ∧
    handleDeltaAck (sendDelta st changes msgId now false).1 msgId =
      { (sendDelta st changes msgId now false).1 with
        pending_delta_acks := st.pending_delta_acks } := by
  have hcond : ¬ (layoutTruthy st.current_layout_id = false ∨ st.ws = false) := by
    simp [hlid, hws]
  have hwin : ¬ (MAX_PENDING_DELTA_ACKS ≤ st.pending_delta_acks.length) := by omega
  unfold sendDelta
  rw [if_neg hcond, if_neg hwin]
  simp only [if_neg (by simp : ¬ (false = true))]
  refine ⟨trivial, trivial, ?_, ?_, ?_⟩
  · exact alGet_alInsert_self st.pending_delta_acks msgId _
  · exact length_alInsert_of_alGet_none st.pending_delta_acks msgId _ hfresh
  · unfold handleDeltaAck
    rw [if_pos ⟨hmsg, by rw [alGet_alInsert_self]; rfl⟩]
    simp only [alRemove_alInsert_of_alGet_none st.pending_delta_acks msgId _ hfresh]

/-- C9 witness: applying the theorem to a concrete authenticated session
with one outstanding ack and a failed write of msg_id "m". -/
theorem failed_delta_send_keeps_state_witness :
    alGet (sendDelta
        ⟨"authenticated", true, true, some "sha256:x", true, [], 0,
         [("a", PendingDeltaAck.mk 1 0)], [], false⟩
        [("b1", .vstr "on")] "m" 7 false).1.pending_delta_acks "m" =
      some (PendingDeltaAck.mk 1 7) :=
  (failed_delta_send_keeps_state
    ⟨"authenticated", true, true, some "sha256:x", true, [], 0,
     [("a", PendingDeltaAck.mk 1 0)], [], false⟩
    [("b1", .vstr "on")] "m" 7 rfl rfl (by decide) rfl (by decide)).2.2.1

/-
C10. A device whose last_interaction_ts lies in the future earns no +50
recency bonus (the bonus needs 0 ≤ elapsed < 300) but its negative elapsed
value sorts first in the tie-break, ahead of past or missing timestamps.
-/

theorem signalBreakdown_no_recent_interaction (signals : List (String × PyVal)) :
    alGet (computeSignalScore signals).2 "recent_interaction" = none := by
  unfold computeSignalScore
  dsimp only
  repeat' split
  all_goals rfl

/-- C10: with a last_interaction_ts strictly in the future of current_time,
the score breakdown carries no recent_interaction entry (no +50 bonus), yet
on equal total scores the device's sort key is strictly smaller than that
of any device with a past or missing interaction timestamp, so it precedes
them in select_device's tie-break. -/
theorem future_timestamp_no_bonus_but_first_in_tie (target : AlertTarget)
    (d₁ d₂ : DeviceContext) (now t₁ : ℚ)
    (h₁ : d₁.last_interaction_ts = some t₁) (hf : now < t₁)
    (h₂ : d₂.last_interaction_ts = none ∨
      ∃ t₂, d₂.last_interaction_ts = some t₂ ∧ t₂ ≤ now)
    (hs : (computeDeviceScore d₁ target now).1 = (computeDeviceScore d₂ target now).1) :
    alGet (computeDeviceScore d₁ target now).2 "recent_interaction" = none ∧
    sortKey target now d₁ < sortKey target now d₂ := by
  constructor
  · unfold computeDeviceScore
    simp only [h₁]
    have hrec : ¬ (0 ≤ now - t₁ ∧ now - t₁ < RECENT_INTERACTION_SECONDS) :=
      fun hc => absurd hc.1 (by linarith)
    rw [if_neg hrec]
    rw [alGet_append, alGet_append]
    rw [signalBreakdown_no_recent_interaction]
    repeat' split
    all_goals rfl
  · unfold sortKey
    rw [Prod.Lex.lt_iff]
    refine Or.inr ⟨by rw [hs], ?_⟩
    rw [Prod.Lex.lt_iff]
    left
    show (tieBreakKey d₁ now).1 < (tieBreakKey d₂ now).1
    unfold tieBreakKey
    simp only [h₁]
    rcases h₂ with hnone | ⟨t₂, ht₂, hle⟩
    · simp only [hnone]
      exact WithTop.coe_lt_top _
    · simp only [ht₂]
      exact_mod_cast (by linarith : now - t₁ < now - t₂)

/-- C10 witness: device "z" with a timestamp 100 seconds in the future gets
no bonus yet sorts before device "a" (no timestamp, same score 0), even
though "a" < "z" alphabetically. -/
theorem future_timestamp_no_bonus_but_first_in_tie_witness :
    sortKey ⟨none, [], []⟩ 100 ⟨"z", none, true, some 200, []⟩ <
      sortKey ⟨none, [], []⟩ 100 ⟨"a", none, true, none, []⟩ :=
  (future_timestamp_no_bonus_but_first_in_tie ⟨none, [], []⟩
    ⟨"z", none, true, some 200, []⟩ ⟨"a", none, true, none, []⟩ 100 200
    rfl (by norm_num) (Or.inl rfl)
    (by norm_num [computeDeviceScore, computeSignalScore, alGet])).2

/-
C1. Determinism of evaluate_domain_update. Every candidate's timestamp
dataclass default samples datetime.now() at construction, so the output
depends on the ambient wall clock (the `now` parameter of the embedding):
two invocations with identical declared inputs but different clock readings
produce structurally different lists. With the timestamp erased the
evaluation is a pure function of its declared inputs.
-/

/-- A one-rule profile whose rule matches domain "d" and classifies low. -/
def c1Profile : LoadedProfile :=
  ⟨"p", "1", "P", ⟨none, [⟨"r1", ⟨"d", none, none⟩, some ⟨"low", false, false⟩,
    none, [], []⟩]⟩⟩

/-- The trigger state for the C1 counterexample. -/
def c1Trigger : DomainState := ⟨"d", none, none, "house", []⟩

/-- C1 counterexample: the same (profile, trigger, snapshot, time-of-day)
evaluated under two different wall-clock readings yields candidate lists
that are not structurally equal: the candidates differ in their timestamp
field, so evaluate_domain_update is not byte-for-byte deterministic in its
declared inputs. -/
theorem evaluateDomainUpdate_not_clock_independent :
    evaluateDomainUpdate c1Profile c1Trigger [("d", c1Trigger)] 720 0 ≠
      evaluateDomainUpdate c1Profile c1Trigger [("d", c1Trigger)] 720 1 := by
  have h0 : evaluateDomainUpdate c1Profile c1Trigger [("d", c1Trigger)] 720 0 =
      .ok [⟨"d", "r1", .low, false, false, false, none, "house", 0⟩] := rfl
  have h1 : evaluateDomainUpdate c1Profile c1Trigger [("d", c1Trigger)] 720 1 =
      .ok [⟨"d", "r1", .low, false, false, false, none, "house", 1⟩] := rfl
  rw [h0, h1]
  intro hEq
  simp only [Except.ok.injEq, List.cons.injEq, IntentCandidate.mk.injEq] at hEq
  norm_num at hEq

theorem evaluateRule_eraseTs_eq (rule : PolicyRule) (state : DomainState)
    (context : EvaluationContext) (quiet_hours : Option QuietHours) (now now' : ℚ) :
    (evaluateRule rule state context quiet_hours now).map (Option.map eraseTs) =
      (evaluateRule rule state context quiet_hours now').map (Option.map eraseTs) := by
  unfold evaluateRule
  repeat' split
  all_goals rfl

theorem evalRulesList_eraseTs_eq (rules : List PolicyRule) (updated : DomainState)
    (context : EvaluationContext) (quiet_hours : Option QuietHours) (now now' : ℚ) :
    eraseOutcome (evalRulesList rules updated context quiet_hours now) =
      eraseOutcome (evalRulesList rules updated context quiet_hours now') := by
  induction rules with
  | nil => rfl
  | cons r rest ih =>
      have h := evaluateRule_eraseTs_eq r updated context quiet_hours now now'
      unfold evalRulesList
      cases e₁ : evaluateRule r updated context quiet_hours now with
      | error a =>
          cases e₂ : evaluateRule r updated context quiet_hours now' with
          | error b => cases a; cases b; rfl
          | ok c' => rw [e₁, e₂] at h; simp [Except.map] at h
      | ok c =>
          cases e₂ : evaluateRule r updated context quiet_hours now' with
          | error b => rw [e₁, e₂] at h; simp [Except.map] at h
          | ok c' =>
              rw [e₁, e₂] at h
              simp only [Except.map, Except.map.eq_def] at h
              have hcc : Option.map eraseTs c = Option.map eraseTs c' := by
                cases h' : (Except.ok (Option.map eraseTs c) :
                    Except Unit (Option IntentCandidate)) with
                | _ => simpa [Except.map] using h
              cases r₁ : evalRulesList rest updated context quiet_hours now with
              | error a =>
                  have := ih
                  rw [r₁] at this
                  cases r₂ : evalRulesList rest updated context quiet_hours now' with
                  | error b => cases a; cases b; rfl
                  | ok os' => rw [r₂] at this; simp [eraseOutcome, Except.map] at this
              | ok os =>
                  have := ih
                  rw [r₁] at this
                  cases r₂ : evalRulesList rest updated context quiet_hours now' with
                  | error b => rw [r₂] at this; simp [eraseOutcome, Except.map] at this
                  | ok os' =>
                      rw [r₂] at this
                      simp only [eraseOutcome, Except.map] at this ⊢
                      have hos : os.map eraseTs = os'.map eraseTs := by
                        simpa using this
                      cases c with
                      | none =>
                          cases c' with
                          | none => simpa using hos
                          | some i' => simp [Option.map] at hcc
                      | some i =>
                          cases c' with
                          | none => simp [Option.map] at hcc
                          | some i' =>
                              simp only [Option.map] at hcc
                              simp [Option.some.injEq] at hcc
                              simp [hcc, hos]

/-- C1 amended: evaluate_domain_update is deterministic in its declared
inputs up to the candidates' timestamp field, which records the wall clock
at construction; with the timestamp erased, any two invocations on the same
(profile, trigger, snapshot, time-of-day) agree exactly, whatever the two
clock readings were. -/
theorem evaluateDomainUpdate_deterministic_up_to_timestamp (profile : LoadedProfile)
    (updated_state : DomainState) (all_states : List (String × DomainState))
    (current_time : Nat) (now now' : ℚ) :
    eraseOutcome (evaluateDomainUpdate profile updated_state all_states current_time now) =
      eraseOutcome (evaluateDomainUpdate profile updated_state all_states current_time now') := by
  unfold evaluateDomainUpdate
  exact evalRulesList_eraseTs_eq _ _ _ _ now now'

/-
C5. Permutation invariance of select_device. The source sorts the scored
list stably by (-score, tie-break key) and takes element 0, which is the
leftmost element of minimal key; since the device_id is the last component
of the key, the minimal key determines the winning device_id, and the
minimal key of a multiset of keys does not depend on their order.
-/

/-- Fold step computing the minimum of a list of keys as an Option (none
for the empty list). -/
def omin {β : Type} [LinearOrder β] : Option β → β → Option β
  | none, x => some x
  | some a, x => some (min a x)

instance ominRightCommutative {β : Type} [LinearOrder β] :
    RightCommutative (@omin β _) :=
  ⟨fun b a₁ a₂ => by
    cases b with
    | none => simp [omin, min_comm]
    | some x => simp [omin, min_right_comm]⟩

theorem foldl_omin_some {β : Type} [LinearOrder β] (xs : List β) (a : β) :
    xs.foldl omin (some a) = some (xs.foldl min a) := by
  induction xs generalizing a with
  | nil => rfl
  | cons x xs ih => simp [List.foldl, omin, ih]

theorem key_foldl_pickBy {α β : Type} [LinearOrder β] (k : α → β) (l : List α) (d : α) :
    k (l.foldl (pickBy k) d) = (l.map k).foldl min (k d) := by
  induction l generalizing d with
  | nil => rfl
  | cons x xs ih =>
      simp only [List.foldl, List.map]
      rw [ih]
      congr 1
      unfold pickBy
      split
      · next h => exact (min_eq_right (le_of_lt h)).symm
      · next h => exact (min_eq_left (not_lt.mp h)).symm

theorem selectDevice_devId_eq_minKey (target : AlertTarget) (devices : List DeviceContext)
    (capabilities : List (String × DeviceCapabilities)) (current_time : ℚ) :
    (selectDevice target devices capabilities current_time).device_id =
      (((devices.filter (isEligible target capabilities)).map
          (sortKey target current_time)).foldl omin none).map SKey.keyId := by
  unfold selectDevice
  cases h : devices.filter (isEligible target capabilities) with
  | nil => simp [h]
  | cons d rest =>
      simp only [h, List.map_cons, List.foldl_cons]
      rw [show omin none (sortKey target current_time d) =
            some (sortKey target current_time d) from rfl]
      rw [foldl_omin_some]
      rw [← key_foldl_pickBy]
      rfl

/-- C5: for every alert target, capability map and current time,
select_device returns the identical device_id on any permutation of the
devices sequence: the winner's device_id is the id component of the
minimal sort key (-score, elapsed-since-interaction, device_id), and a
multiset minimum is order-independent. -/
theorem selectDevice_permutation_invariant (target : AlertTarget)
    (capabilities : List (String × DeviceCapabilities)) (current_time : ℚ)
    (devs₁ devs₂ : List DeviceContext) (hperm : List.Perm devs₁ devs₂) :
    (selectDevice target devs₁ capabilities current_time).device_id =
      (selectDevice target devs₂ capabilities current_time).device_id := by
  rw [selectDevice_devId_eq_minKey, selectDevice_devId_eq_minKey]
  have hkeys : List.Perm
      ((devs₁.filter (isEligible target capabilities)).map (sortKey target current_time))
      ((devs₂.filter (isEligible target capabilities)).map (sortKey target current_time)) :=
    (hperm.filter _).map _
  have hfold : ((devs₁.filter (isEligible target capabilities)).map
        (sortKey target current_time)).foldl omin none =
      ((devs₂.filter (isEligible target capabilities)).map
        (sortKey target current_time)).foldl omin none :=
    hkeys.foldl_eq none
  rw [hfold]

/-- C5 witness: swapping two concrete devices leaves the selected
device_id unchanged. -/
theorem selectDevice_permutation_invariant_witness :
    (selectDevice ⟨none, [], []⟩
        [⟨"a", none, true, none, []⟩, ⟨"b", none, true, some 10, []⟩]
        [("a", ⟨"a", [], false⟩), ("b", ⟨"b", [], false⟩)] 100).device_id =
      (selectDevice ⟨none, [], []⟩
        [⟨"b", none, true, some 10, []⟩, ⟨"a", none, true, none, []⟩]
        [("a", ⟨"a", [], false⟩), ("b", ⟨"b", [], false⟩)] 100).device_id :=
  selectDevice_permutation_invariant ⟨none, [], []⟩
    [("a", ⟨"a", [], false⟩), ("b", ⟨"b", [], false⟩)] 100
    [⟨"a", none, true, none, []⟩, ⟨"b", none, true, some 10, []⟩]
    [⟨"b", none, true, some 10, []⟩, ⟨"a", none, true, none, []⟩]
    (List.Perm.swap (⟨"b", none, true, some 10, []⟩ : DeviceContext)
      (⟨"a", none, true, none, []⟩ : DeviceContext) [])

end Trestle
